import Mathlib

/-!
Shallow embedding of `src/analysis/model.py`: the classes `Model` and
`Parameter`.

Modelling conventions.

* Numeric values are modelled as `Int`.  The repository targets Python 2
  (the `long` builtin appears in `Parameter.set_value`), and every claim is
  about exact integer inputs; no floating-point behaviour is needed.
* Python exceptions are modelled by `PyErr`.  A raising operation either
  returns `Except PyErr _` (when it cannot leave a partially mutated state)
  or returns the new state together with an `Option PyErr` (when, as in
  `Model.__init__`, mutations performed before the exception persist).
* The `ValueError` raised by `Parameter.check_bounds` is built by string
  formatting from exactly three quantities: the offending value and the two
  bounds (`"Value outside bounds: %.2g [%.2g,%.2g]"`).  The embedding stores
  those three numbers in the error constructor instead of rendering the
  formatted text.
* Python 2 ordering semantics matter in `check_bounds`: a non-numeric,
  non-`None` object compares greater than every number in CPython 2, so a
  non-numeric value always fails the upper-bound test, and the subsequent
  `"%.2g" % value` formatting of that non-numeric value raises
  `TypeError: float argument required`.  The embedding reflects this by
  returning a `typeError` from `check_bounds` for non-numeric values when
  bounds are present.
* `Model._params` and `Model._mapping` are class attributes shared by all
  instances of a subclass; the embedding separates them into `ModelClass`,
  threaded through and returned by every mutating operation, while
  per-instance state (the ordinary attribute dictionary written by
  `object.__setattr__`) lives in `ModelInstance`.
* `Model.__getattr__` and `Model.__setattr__` recurse through the alias
  mapping; a cyclic mapping would recurse forever in Python (until the
  interpreter recursion limit), so the embedding gives both a fuel
  parameter and a `recursionError` result for exhausted fuel.
* Calls to the `Model._cache` hook are recorded in the `hooks` field of
  `SetResult`, in call order; this models a subclass whose overridden hook
  records each invocation, which is how the spec's testable property
  observes the hook.
* Only the data attributes relevant to the claims are modelled for ordinary
  attribute lookup: the instance dictionary (which after `__init__` holds
  `name`).  Class-level method objects are not part of the state.
-/

deriving instance DecidableEq for Except

namespace UgaliModel

/-- Python exceptions that the embedded code can raise.  `valueError`
carries the three numbers interpolated into the message
`"Value outside bounds: %.2g [%.2g,%.2g]"`. -/
inductive PyErr where
  | attributeError (name : String)
  | valueError (value lo hi : Int)
  | typeError (msg : String)
  | recursionError
deriving DecidableEq, Repr

/-- The `Parameter` class: a wrapped numeric value `__value__` and optional
inclusive bounds `__bounds__`. -/
structure Parameter where
  __value__ : Int
  __bounds__ : Option (Int × Int)
deriving DecidableEq, Repr

/-- A Python value as it can appear on the right-hand side of an attribute
assignment: a number, a string, another `Parameter`, or some other
non-numeric object (tagged by its type name). -/
inductive PyVal where
  | num (i : Int)
  | str (s : String)
  | pparam (p : Parameter)
  | obj (ty : String)
deriving DecidableEq, Repr

/-- Numeric reading of a value for the bounds comparison: plain numbers
compare as themselves and a `Parameter` compares through its reflected
comparison operators, i.e. as its inner value. -/
def PyVal.asNum : PyVal → Option Int
  | .num i => some i
  | .pparam p => some p.__value__
  | _ => none

/-- True exactly for the values accepted by `set_value`'s isinstance
dispatch: `int`/`long`/`float` or another `Parameter`. -/
def PyVal.isNumericOrParam : PyVal → Bool
  | .num _ => true
  | .pparam _ => true
  | _ => false

/-- The `value` property of `Parameter`. -/
def Parameter.value (p : Parameter) : Int := p.__value__

/-- The `bounds` property of `Parameter`. -/
def Parameter.bounds (p : Parameter) : Option (Int × Int) := p.__bounds__

/-- `Parameter.check_bounds`.  With no bounds it returns without checking.
With bounds `(lo, hi)` it evaluates `lo <= value <= hi`; a numeric value
inside the bounds passes, a numeric value outside them raises `ValueError`
with the value and both bounds formatted into the message.  A non-numeric
value compares greater than every number in Python 2, so the test fails and
the `%.2g` formatting of the non-numeric value then raises
`TypeError: float argument required`. -/
def Parameter.check_bounds (p : Parameter) (v : PyVal) : Option PyErr :=
  match p.__bounds__ with
  | none => none
  | some (lo, hi) =>
    match v.asNum with
    | some n => if lo ≤ n ∧ n ≤ hi then none else some (.valueError n lo hi)
    | none => some (.typeError "float argument required")

/-- `Parameter.set_value`: check bounds first, then store a numeric value,
copy another Parameter's inner value, or raise `TypeError`. -/
def Parameter.set_value (p : Parameter) (v : PyVal) : Except PyErr Parameter :=
  match p.check_bounds v with
  | some e => .error e
  | none =>
    match v with
    | .num i => .ok { p with __value__ := i }
    | .pparam q => .ok { p with __value__ := q.__value__ }
    | _ => .error (.typeError "Numeric type required")

/-- `Parameter.set_bounds`: a `None` argument leaves the bounds unchanged;
otherwise the bounds are replaced.  The current value is not re-checked. -/
def Parameter.set_bounds (p : Parameter) (b : Option (Int × Int)) : Parameter :=
  match b with
  | none => p
  | some bb => { p with __bounds__ := some bb }

/-- `Parameter.set`: set bounds first, then value, so the incoming value is
validated against the new bounds. -/
def Parameter.set (p : Parameter) (v : PyVal) (b : Option (Int × Int)) :
    Except PyErr Parameter :=
  (p.set_bounds b).set_value v

/-- `Parameter.__init__(value, bounds)`: starting from the class defaults
(`__value__ = None`, `__bounds__ = None`) it calls `set(value, bounds)`.
The placeholder `0` standing for the unset `None` value is never observable:
`set` either overwrites it or fails, discarding the instance. -/
def Parameter.construct (v : PyVal) (b : Option (Int × Int)) :
    Except PyErr Parameter :=
  Parameter.set ⟨0, none⟩ v b

/-- Decidable form of the bounds invariant `lower ≤ value ≤ upper`
(vacuously true when the parameter is unbounded). -/
def Parameter.inBounds (p : Parameter) : Bool :=
  match p.__bounds__ with
  | none => true
  | some (lo, hi) => lo ≤ p.__value__ ∧ p.__value__ ≤ hi

/-- Text of a bounds field as Python prints it: `None` or `(lo, hi)`. -/
def boundsText : Option (Int × Int) → String
  | none => "None"
  | some (lo, hi) => "(" ++ toString lo ++ ", " ++ toString hi ++ ")"

/-- `Parameter.__repr__`: `"Parameter(<value>, <bounds>)"`. -/
def Parameter.reprStr (p : Parameter) : String :=
  "Parameter(" ++ toString p.__value__ ++ ", " ++ boundsText p.__bounds__ ++ ")"

/-- Numeric protocol of `Parameter` (`__add__` etc.): each operation
applies the native operation to the wrapped value and the operand and
returns the plain numeric result; none of them returns a `Parameter` or
touches the stored state. -/
def Parameter.add (p : Parameter) (x : Int) : Int := p.__value__ + x

/-- Method `__sub__`. -/
def Parameter.sub (p : Parameter) (x : Int) : Int := p.__value__ - x

/-- Method `__mul__`. -/
def Parameter.mul (p : Parameter) (x : Int) : Int := p.__value__ * x

/-- Method `__floordiv__` (Python floor division). -/
def Parameter.floordiv (p : Parameter) (x : Int) : Int := Int.fdiv p.__value__ x

/-- Method `__mod__` (Python remainder, sign of the divisor). -/
def Parameter.mod (p : Parameter) (x : Int) : Int := Int.fmod p.__value__ x

/-- Reflected method `__radd__`. -/
def Parameter.radd (p : Parameter) (x : Int) : Int := x + p.__value__

/-- Reflected method `__rsub__`. -/
def Parameter.rsub (p : Parameter) (x : Int) : Int := x - p.__value__

/-- Reflected method `__rmul__`. -/
def Parameter.rmul (p : Parameter) (x : Int) : Int := x * p.__value__

/-- Reflected method `__rfloordiv__`. -/
def Parameter.rfloordiv (p : Parameter) (x : Int) : Int := Int.fdiv x p.__value__

/-- Reflected method `__rmod__`. -/
def Parameter.rmod (p : Parameter) (x : Int) : Int := Int.fmod x p.__value__

/-- Unary method `__pos__`. -/
def Parameter.pos (p : Parameter) : Int := p.__value__

/-- Unary method `__neg__`. -/
def Parameter.neg (p : Parameter) : Int := -p.__value__

/-- Unary method `__abs__`. -/
def Parameter.absOp (p : Parameter) : Int := |p.__value__|

/-- Bitwise method `__and__`. -/
def Parameter.landOp (p : Parameter) (x : Int) : Int := Int.land p.__value__ x

/-- Bitwise method `__or__`. -/
def Parameter.lorOp (p : Parameter) (x : Int) : Int := Int.lor p.__value__ x

/-- Bitwise method `__xor__`. -/
def Parameter.xorOp (p : Parameter) (x : Int) : Int := Int.xor p.__value__ x

/-- Reflected bitwise method `__rand__`. -/
def Parameter.rlandOp (p : Parameter) (x : Int) : Int := Int.land x p.__value__

/-- Comparison method `__eq__`. -/
def Parameter.eqOp (p : Parameter) (x : Int) : Bool := p.__value__ = x

/-- Comparison method `__ne__`. -/
def Parameter.neOp (p : Parameter) (x : Int) : Bool := p.__value__ ≠ x

/-- Comparison method `__lt__`. -/
def Parameter.ltOp (p : Parameter) (x : Int) : Bool := p.__value__ < x

/-- Comparison method `__gt__`. -/
def Parameter.gtOp (p : Parameter) (x : Int) : Bool := p.__value__ > x

/-- Comparison method `__le__`. -/
def Parameter.leOp (p : Parameter) (x : Int) : Bool := p.__value__ ≤ x

/-- Comparison method `__ge__`. -/
def Parameter.geOp (p : Parameter) (x : Int) : Bool := p.__value__ ≥ x

/-- First binding of a key in an ordered association list; models `name in
dict` together with `dict[name]`. -/
def assocFind {α : Type} : List (String × α) → String → Option α
  | [], _ => none
  | (k', v) :: t, k => if k' = k then some v else assocFind t k

/-- Replace the first binding of a key in place (`dict[name] = v` for an
existing key keeps its position). -/
def assocUpdate {α : Type} : List (String × α) → String → α → List (String × α)
  | [], _, _ => []
  | (k', v') :: t, k, v =>
    if k' = k then (k', v) :: t else (k', v') :: assocUpdate t k v

/-- Insert-or-update for an ordered dictionary: an existing key is updated
in place, a new key is appended at the end. -/
def assocSet {α : Type} : List (String × α) → String → α → List (String × α)
  | [], k, v => [(k, v)]
  | (k', v') :: t, k, v =>
    if k' = k then (k', v) :: t else (k', v') :: assocSet t k v

/-- Class-level state of a `Model` subclass: `_params`, the ordered mapping
from parameter name to `Parameter`, and `_mapping`, the ordered alias
table.  Both are class attributes shared by every instance. -/
structure ModelClass where
  _params : List (String × Parameter)
  _mapping : List (String × String)
deriving DecidableEq, Repr

/-- Per-instance state of a `Model`: the ordinary attribute dictionary
written by `object.__setattr__` (after `__init__` it holds `name`). -/
structure ModelInstance where
  attrs : List (String × PyVal)
deriving DecidableEq, Repr

/-- `Model.__getattr__`: alias redirect (recursing into `__getattr__` with
the mapped name), then declared parameters (returning the parameter's
current value, a plain number), then ordinary attribute lookup via
`object.__getattribute__`, which raises `AttributeError` when the name is
truly absent.  Fuel bounds the alias recursion depth. -/
def Model.getattr (cls : ModelClass) (inst : ModelInstance) :
    Nat → String → Except PyErr PyVal
  | 0, _ => .error .recursionError
  | fuel + 1, name =>
    match assocFind cls._mapping name with
    | some tgt => Model.getattr cls inst fuel tgt
    | none =>
      match assocFind cls._params name with
      | some p => .ok (.num p.__value__)
      | none =>
        match assocFind inst.attrs name with
        | some v => .ok v
        | none => .error (.attributeError name)

/-- Reading `m.x` in Python: normal lookup (the instance dictionary) is
tried first, and `__getattr__` only runs when it fails. -/
def Model.readattr (cls : ModelClass) (inst : ModelInstance)
    (fuel : Nat) (name : String) : Except PyErr PyVal :=
  match assocFind inst.attrs name with
  | some v => .ok v
  | none => Model.getattr cls inst fuel name

/-- Result of a mutating `Model` operation: the updated shared class state,
the updated instance state, the sequence of names passed to the `_cache`
hook during the call, and the exception, if one was raised.  Mutations
performed before the exception persist, as they do in Python. -/
structure SetResult where
  cls : ModelClass
  inst : ModelInstance
  hooks : List String
  err : Option PyErr
deriving DecidableEq, Repr

/-- `Model.__setattr__`: alias redirect (recursing into `__setattr__` with
the mapped name), then declared parameters — `_setp` calls `set_value` and
then the `_cache` hook with the (resolved) parameter name — and otherwise
an ordinary `object.__setattr__` instance-attribute write. -/
def Model.setattr (cls : ModelClass) (inst : ModelInstance) :
    Nat → String → PyVal → SetResult
  | 0, _, _ => ⟨cls, inst, [], some .recursionError⟩
  | fuel + 1, name, v =>
    match assocFind cls._mapping name with
    | some tgt => Model.setattr cls inst fuel tgt v
    | none =>
      match assocFind cls._params name with
      | some p =>
        match p.set_value v with
        | .ok p' => ⟨⟨assocUpdate cls._params name p', cls._mapping⟩, inst, [name], none⟩
        | .error e => ⟨cls, inst, [], some e⟩
      | none => ⟨cls, ⟨assocSet inst.attrs name v⟩, [], none⟩

/-- Name resolution through the alias table, following chains until a
non-alias name is reached (or fuel runs out). -/
def Model.resolve (cls : ModelClass) : Nat → String → Option String
  | 0, _ => none
  | fuel + 1, name =>
    match assocFind cls._mapping name with
    | some tgt => Model.resolve cls fuel tgt
    | none => some name

/-- The keyword loop of `Model.__init__`: for each keyword in iteration
order, first `self.__getattr__(param)` (raising `AttributeError` for an
unresolvable name), then `self.__setattr__(param, value)`.  The first
exception stops the loop; assignments already performed persist. -/
def Model.initLoop (cls : ModelClass) (inst : ModelInstance) (fuel : Nat) :
    List (String × PyVal) → SetResult
  | [] => ⟨cls, inst, [], none⟩
  | (k, v) :: rest =>
    match Model.getattr cls inst fuel k with
    | .error e => ⟨cls, inst, [], some e⟩
    | .ok _ =>
      let r := Model.setattr cls inst fuel k v
      match r.err with
      | some _ => r
      | none =>
        let r2 := Model.initLoop r.cls r.inst fuel rest
        ⟨r2.cls, r2.inst, r.hooks ++ r2.hooks, r2.err⟩

/-- `Model.__init__`: `self.name = self.__class__.__name__` (through
`__setattr__`, so a parameter or alias called `name` intercepts it), then
the keyword loop.  The keyword list order stands for the dictionary
iteration order of `params.items()`. -/
def Model.init (cls : ModelClass) (clsName : String) (fuel : Nat)
    (kwargs : List (String × PyVal)) : SetResult :=
  let r0 := Model.setattr cls ⟨[]⟩ fuel "name" (.str clsName)
  match r0.err with
  | some _ => r0
  | none =>
    let r := Model.initLoop r0.cls r0.inst fuel kwargs
    ⟨r.cls, r.inst, r0.hooks ++ r.hooks, r.err⟩

/-- Width used by `Model.__str__`: the length of the longest parameter
name (`len(max(keys, key=len))`). -/
def maxKeyLen (l : List (String × Parameter)) : Nat :=
  l.foldl (fun a np => Nat.max a np.1.length) 0

/-- Python `'{0!s:{width}}'` for a string: left-justified, padded on the
right with spaces to the given width. -/
def padTo (s : String) (w : Nat) : String :=
  s ++ String.mk (List.replicate (w - s.length) ' ')

/-- One row of `Model.__str__`:
`'\n    {0!s:{width}} : {1!r}'.format(name, value)` — the padded name and
the parameter's `repr`. -/
def paramLine (w : Nat) (np : String × Parameter) : String :=
  "\n    " ++ padTo np.1 w ++ " : " ++ np.2.reprStr

/-- `Model.__str__`: the header `"<name>:\n  Parameters:"`, then `"\n"`
when there are no parameters, otherwise one appended row per parameter in
insertion order.  `nm` is the value of the `name` attribute. -/
def Model.str (cls : ModelClass) (nm : String) : String :=
  let ret := nm ++ ":\n" ++ "  Parameters:"
  if cls._params = [] then ret ++ "\n"
  else cls._params.foldl (fun acc np => acc ++ paramLine (maxKeyLen cls._params) np) ret

/-- Concatenation of the rows of `Model.__str__` for a parameter list, in
list (= insertion) order. -/
def linesText (w : Nat) : List (String × Parameter) → String
  | [] => ""
  | np :: t => paramLine w np ++ linesText w t

/-- A subclass with one unbounded parameter `x`; used as a concrete
fixture. -/
def oneParamCls : ModelClass := ⟨[("x", ⟨0, none⟩)], []⟩

/-- A subclass with one bounded parameter `x` with bounds `(0, 10)`. -/
def boundedParamCls : ModelClass := ⟨[("x", ⟨0, some (0, 10)⟩)], []⟩

/-- A subclass whose alias table is a two-hop chain `a -> b -> c` with only
`c` a declared parameter (holding `7`); `b` is itself an alias, not a
parameter. -/
def chainCls : ModelClass := ⟨[("c", ⟨7, none⟩)], [("a", "b"), ("b", "c")]⟩

/-- A subclass that declares a parameter literally called `name`, with
bounds admitting `5`. -/
def nameParamCls : ModelClass := ⟨[("name", ⟨0, some (0, 10)⟩)], []⟩

/-- A subclass with two parameters, used for the textual-form fixture. -/
def twoParamCls : ModelClass := ⟨[("x", ⟨3, none⟩), ("longer", ⟨7, some (0, 10)⟩)], []⟩

/-- Helper: updating the first binding of a present key makes `assocFind`
return the new value. -/
theorem assocFind_update_self {α : Type} (l : List (String × α)) (k : String)
    (v p : α) (h : assocFind l k = some p) :
    assocFind (assocUpdate l k v) k = some v := by
  induction l with
  | nil => simp [assocFind] at h
  | cons hd tl ih =>
    obtain ⟨k', v'⟩ := hd
    by_cases hk : k' = k
    · simp [assocFind, assocUpdate, hk]
    · simp [assocFind, assocUpdate, hk] at h ⊢
      exact ih h

/-- C1: for a Parameter with bounds `(lo, hi)`, `set_value(v)` with
`lo ≤ v ≤ hi` succeeds and the `value` property afterwards reads `v`, while
`set_value(v)` with `v < lo` or `v > hi` raises a `ValueError` carrying the
offending value and both bounds (the three numbers interpolated into the
message `"Value outside bounds: %.2g [%.2g,%.2g]"`). -/
theorem setValueBoundsCheck (p : Parameter) (lo hi v : Int)
    (hb : p.__bounds__ = some (lo, hi)) :
    ((lo ≤ v ∧ v ≤ hi) →
      p.set_value (.num v) = .ok { p with __value__ := v } ∧
      ({ p with __value__ := v } : Parameter).value = v) ∧
    ((v < lo ∨ hi < v) → p.set_value (.num v) = .error (.valueError v lo hi)) := by
  constructor
  · intro h
    refine ⟨?_, rfl⟩
    unfold Parameter.set_value Parameter.check_bounds
    rw [hb]
    simp [PyVal.asNum, h.1, h.2]
  · intro h
    have h2 : ¬(lo ≤ v ∧ v ≤ hi) := by omega
    unfold Parameter.set_value Parameter.check_bounds
    rw [hb]
    simp only [PyVal.asNum, if_neg h2]

/-- Witness for C1 on the parameter with bounds `(0, 10)`: value `5` is
accepted and read back, value `11` raises the bounds error carrying
`11`, `0` and `10`. -/
theorem setValueBoundsCheckWitness :
    (⟨0, some (0, 10)⟩ : Parameter).set_value (.num 5) = .ok ⟨5, some (0, 10)⟩ ∧
    (⟨0, some (0, 10)⟩ : Parameter).set_value (.num 11) =
      .error (.valueError 11 0 10) := by
  have h1 := setValueBoundsCheck ⟨0, some (0, 10)⟩ 0 10 5 rfl
  have h2 := setValueBoundsCheck ⟨0, some (0, 10)⟩ 0 10 11 rfl
  exact ⟨(h1.1 (by decide)).1, h2.2 (by decide)⟩

/-- C2 (amended): alias resolution in attribute reads and writes is
recursive, not one-hop — `__getattr__` and `__setattr__` re-enter
themselves with the mapped name, so a chain of aliases is followed until a
non-alias name is reached (with the recursion bounded only by the
interpreter's recursion limit, modelled as fuel).  The first conjunct
characterises `__getattr__` as full chain resolution followed by the
parameter / ordinary-attribute dispatch at the final name; the second shows
one alias hop of both a read and a write literally re-enters the same
dispatch with the mapped name. -/
theorem aliasResolutionRecursive (cls : ModelClass) (inst : ModelInstance)
    (fuel : Nat) (name : String) (v : PyVal) :
    (Model.getattr cls inst fuel name =
      match Model.resolve cls fuel name with
      | none => .error .recursionError
      | some c =>
        match assocFind cls._params c with
        | some p => .ok (.num p.__value__)
        | none =>
          match assocFind inst.attrs c with
          | some w => .ok w
          | none => .error (.attributeError c)) ∧
    (∀ tgt, assocFind cls._mapping name = some tgt →
      Model.getattr cls inst (fuel + 1) name = Model.getattr cls inst fuel tgt ∧
      Model.setattr cls inst (fuel + 1) name v = Model.setattr cls inst fuel tgt v) := by
  constructor
  · induction fuel generalizing name with
    | zero => rfl
    | succ f ih =>
      cases hm : assocFind cls._mapping name with
      | some tgt =>
        simp only [Model.getattr, Model.resolve, hm]
        exact ih tgt
      | none =>
        simp only [Model.getattr, Model.resolve, hm]
  · intro tgt htgt
    constructor
    · simp only [Model.getattr, htgt]
    · simp only [Model.setattr, htgt]

/-- Witness for C2 (amended): one hop from `b` re-enters the dispatch with
`c`, and reading `b` indeed lands on parameter `c`'s value. -/
theorem aliasResolutionRecursiveWitness :
    Model.getattr chainCls ⟨[]⟩ 3 "b" = Model.getattr chainCls ⟨[]⟩ 2 "c" ∧
    Model.getattr chainCls ⟨[]⟩ 3 "b" = .ok (.num 7) := by
  have h := (aliasResolutionRecursive chainCls ⟨[]⟩ 2 "b" (.num 0)).2 "c" (by decide)
  exact ⟨h.1, by decide⟩

/-- C2 counterexample: with the alias chain `a -> b -> c` where `b` is
itself an alias (and neither a declared parameter nor an ordinary
attribute), reading `a` succeeds and returns parameter `c`'s value `7`: the
chain IS followed past the first hop, so the access is not redirected
exactly once as the claim states (one-hop resolution would stop at `b` and
fail). -/
theorem aliasOneHopCex :
    Model.getattr chainCls ⟨[]⟩ 5 "a" = .ok (.num 7) ∧
    Model.readattr chainCls ⟨[]⟩ 5 "a" = .ok (.num 7) ∧
    assocFind chainCls._params "b" = none ∧
    assocFind chainCls._mapping "b" = some "c" := by decide

/-- C3 (amended): when the constructor's keyword loop reaches a keyword
whose name resolves to neither a declared parameter nor an existing
attribute, the `AttributeError` is raised before any assignment for that
keyword and the loop stops, leaving the state exactly as the earlier
keywords left it; keywords processed earlier in iteration order have
already been assigned at that point. -/
theorem initLoopStopsAtBadName (cls : ModelClass) (inst : ModelInstance)
    (fuel : Nat) (k : String) (v : PyVal) (rest : List (String × PyVal))
    (e : PyErr) (h : Model.getattr cls inst fuel k = .error e) :
    Model.initLoop cls inst fuel ((k, v) :: rest) = ⟨cls, inst, [], some e⟩ := by
  simp only [Model.initLoop, h]

/-- Witness for C3 (amended): the loop hitting the unknown keyword `bad`
stops with `AttributeError("bad")` and does not touch the state. -/
theorem initLoopStopsAtBadNameWitness :
    Model.initLoop oneParamCls ⟨[]⟩ 5 [("bad", .num 1)] =
      ⟨oneParamCls, ⟨[]⟩, [], some (.attributeError "bad")⟩ :=
  initLoopStopsAtBadName oneParamCls ⟨[]⟩ 5 "bad" (.num 1) [] (.attributeError "bad")
    (by decide)

/-- C3 counterexample: constructing with keywords `x=5, bad=1` (in that
iteration order) on a subclass declaring only `x` raises
`AttributeError("bad")`, yet the declared parameter `x` has already been
mutated from `0` to `5` by the time the error is raised — contradicting the
claim that the error comes before any declared parameter is mutated. -/
theorem initMutatesBeforeErrorCex :
    (Model.init oneParamCls "M" 5 [("x", .num 5), ("bad", .num 1)]).err =
      some (.attributeError "bad") ∧
    assocFind (Model.init oneParamCls "M" 5
        [("x", .num 5), ("bad", .num 1)]).cls._params "x" = some ⟨5, none⟩ ∧
    assocFind oneParamCls._params "x" = some ⟨0, none⟩ := by decide

/-- Helper: the `ret +=` loop of `Model.__str__` appends the rows of
`linesText` to the accumulated string. -/
theorem foldl_paramLine (w : Nat) (l : List (String × Parameter)) :
    ∀ acc : String,
      l.foldl (fun a np => a ++ paramLine w np) acc = acc ++ linesText w l := by
  induction l with
  | nil =>
    intro acc
    apply String.ext
    simp [linesText, String.data_append]
  | cons hd tl ih =>
    intro acc
    simp only [List.foldl_cons, linesText, ih, String.append_assoc]

/-- C4: the textual form of a Model is the header `"<Name>:\n  Parameters:"`
followed, when the parameter mapping is non-empty, by one row per parameter
in insertion order — `"\n    "`, the name left-justified to the width of
the widest name, `" : "`, and the parameter's printed form
`Parameter(<value>, <bounds>)` (the `'{0!s:{width}} : {1!r}'` format of the
source); when the mapping is empty the output is exactly
`"<Name>:\n  Parameters:\n"` with no parameter rows. -/
theorem modelStrForm (cls : ModelClass) (nm : String) :
    (cls._params = [] → Model.str cls nm = nm ++ ":\n  Parameters:\n") ∧
    (cls._params ≠ [] →
      Model.str cls nm =
        nm ++ ":\n  Parameters:" ++ linesText (maxKeyLen cls._params) cls._params) := by
  constructor
  · intro h
    have hlit : (":\n" : String) ++ ("  Parameters:" ++ "\n") = ":\n  Parameters:\n" := by
      decide
    unfold Model.str
    rw [if_pos h, String.append_assoc, String.append_assoc, hlit]
  · intro h
    have hlit : (":\n" : String) ++ "  Parameters:" = ":\n  Parameters:" := by decide
    unfold Model.str
    rw [if_neg h, foldl_paramLine, String.append_assoc nm, hlit]

/-- Witness for C4: the two-parameter fixture prints the header and one
aligned row per parameter in insertion order; the empty fixture prints the
bare header. -/
theorem modelStrFormWitness :
    twoParamCls._params ≠ [] ∧
    Model.str twoParamCls "M" =
      "M:\n  Parameters:\n    x      : Parameter(3, None)\n    longer : Parameter(7, (0, 10))" ∧
    Model.str ⟨[], []⟩ "Empty" = "Empty:\n  Parameters:\n" := by
  have h2 := (modelStrForm twoParamCls "M").2 (by decide)
  have h0 := (modelStrForm ⟨[], []⟩ "Empty").1 rfl
  exact ⟨by decide, h2.trans (by decide), h0.trans (by decide)⟩

/-- C5: a value that is neither a number nor another Parameter is rejected
with a `TypeError` — from the isinstance dispatch (`"Numeric type
required"`) when the parameter is unbounded, and from the `%.2g` formatting
of the non-numeric value inside the failed bounds check (`"float argument
required"`) when it is bounded, since in Python 2 a non-numeric object
compares greater than every number.  When the assigned value is another
Parameter whose inner value passes the bounds check, that inner value is
copied into this one. -/
theorem setValueTypeDispatch (p : Parameter) (v : PyVal)
    (hv : v.isNumericOrParam = false) :
    (∃ msg, p.set_value v = .error (.typeError msg)) ∧
    (∀ q p', p.set_value (.pparam q) = .ok p' → p'.__value__ = q.__value__) := by
  constructor
  · cases v with
    | num i => simp [PyVal.isNumericOrParam] at hv
    | pparam q => simp [PyVal.isNumericOrParam] at hv
    | str s =>
      cases hb : p.__bounds__ with
      | none =>
        exact ⟨"Numeric type required", by
          unfold Parameter.set_value Parameter.check_bounds
          rw [hb]⟩
      | some bb =>
        obtain ⟨lo, hi⟩ := bb
        exact ⟨"float argument required", by
          unfold Parameter.set_value Parameter.check_bounds
          rw [hb]
          rfl⟩
    | obj t =>
      cases hb : p.__bounds__ with
      | none =>
        exact ⟨"Numeric type required", by
          unfold Parameter.set_value Parameter.check_bounds
          rw [hb]⟩
      | some bb =>
        obtain ⟨lo, hi⟩ := bb
        exact ⟨"float argument required", by
          unfold Parameter.set_value Parameter.check_bounds
          rw [hb]
          rfl⟩
  · intro q p' h
    unfold Parameter.set_value at h
    cases hc : p.check_bounds (.pparam q) with
    | some e => rw [hc] at h; exact absurd h (by simp)
    | none =>
      rw [hc] at h
      simp only [Except.ok.injEq] at h
      rw [← h]

/-- Witness for C5: a string assigned to an unbounded parameter raises the
dispatch `TypeError`, a string assigned to a bounded parameter raises the
formatting `TypeError`, and assigning a Parameter copies its inner value. -/
theorem setValueTypeDispatchWitness :
    (∃ msg, (⟨0, none⟩ : Parameter).set_value (.str "foo") = .error (.typeError msg)) ∧
    (∃ msg, (⟨0, some (0, 10)⟩ : Parameter).set_value (.str "foo") =
      .error (.typeError msg)) ∧
    (⟨3, none⟩ : Parameter).set_value (.pparam ⟨7, some (0, 10)⟩) = .ok ⟨7, none⟩ := by
  have h1 := (setValueTypeDispatch ⟨0, none⟩ (.str "foo") (by decide)).1
  have h2 := (setValueTypeDispatch ⟨0, some (0, 10)⟩ (.str "foo") (by decide)).1
  exact ⟨h1, h2, by decide⟩

/-- Helper: a successful `set_value` always leaves the stored value inside
the stored bounds (the bounds are unchanged and the incoming value was
checked against them). -/
theorem setValue_inBounds (p p' : Parameter) (v : PyVal)
    (h : p.set_value v = .ok p') : p'.inBounds = true := by
  unfold Parameter.set_value at h
  cases hc : p.check_bounds v with
  | some e => rw [hc] at h; exact absurd h (by simp)
  | none =>
    rw [hc] at h
    unfold Parameter.check_bounds at hc
    cases v with
    | num i =>
      simp only [Except.ok.injEq] at h
      cases hb : p.__bounds__ with
      | none =>
        rw [← h]
        simp [Parameter.inBounds, hb]
      | some bb =>
        obtain ⟨lo, hi⟩ := bb
        rw [hb] at hc
        simp only [PyVal.asNum] at hc
        rw [← h]
        unfold Parameter.inBounds
        simp only [hb]
        by_cases hin : lo ≤ i ∧ i ≤ hi
        · simp [hin.1, hin.2]
        · rw [if_neg hin] at hc; exact absurd hc (by simp)
    | pparam q =>
      simp only [Except.ok.injEq] at h
      cases hb : p.__bounds__ with
      | none =>
        rw [← h]
        simp [Parameter.inBounds, hb]
      | some bb =>
        obtain ⟨lo, hi⟩ := bb
        rw [hb] at hc
        simp only [PyVal.asNum] at hc
        rw [← h]
        unfold Parameter.inBounds
        simp only [hb]
        by_cases hin : lo ≤ q.__value__ ∧ q.__value__ ≤ hi
        · simp [hin.1, hin.2]
        · rw [if_neg hin] at hc; exact absurd hc (by simp)
    | str s => exact absurd h (by simp)
    | obj t => exact absurd h (by simp)

/-- C6 (amended): the invariant `lower ≤ value ≤ upper` (for non-`None`
bounds) holds after every successful construction, `set_value`, and `set`;
it does NOT survive `set_bounds`, which replaces the bounds without
re-checking the stored value. -/
theorem boundsInvariantAfterSet (p p' : Parameter) (v : PyVal)
    (b : Option (Int × Int)) :
    (Parameter.construct v b = .ok p' → p'.inBounds = true) ∧
    (p.set_value v = .ok p' → p'.inBounds = true) ∧
    (p.set v b = .ok p' → p'.inBounds = true) := by
  exact ⟨fun h => setValue_inBounds _ _ _ h, fun h => setValue_inBounds _ _ _ h,
    fun h => setValue_inBounds _ _ _ h⟩

/-- Witness for C6 (amended): constructing with value `5` and bounds
`(0, 10)` yields a parameter satisfying the invariant. -/
theorem boundsInvariantAfterSetWitness :
    Parameter.construct (.num 5) (some (0, 10)) = .ok ⟨5, some (0, 10)⟩ ∧
    Parameter.inBounds ⟨5, some (0, 10)⟩ = true := by
  have h := (boundsInvariantAfterSet ⟨0, none⟩ ⟨5, some (0, 10)⟩ (.num 5)
    (some (0, 10))).1
  exact ⟨by decide, h (by decide)⟩

/-- C6 counterexample: the parameter constructed with value `5` and bounds
`(0, 10)` satisfies the invariant, but the public mutation
`set_bounds((6, 8))` then succeeds and leaves `value = 5` outside the new
bounds `(6, 8)` — `set_bounds` does not re-check the existing value, so the
claimed invariant fails after this successful mutation. -/
theorem boundsInvariantSetBoundsCex :
    Parameter.construct (.num 5) (some (0, 10)) = .ok ⟨5, some (0, 10)⟩ ∧
    (⟨5, some (0, 10)⟩ : Parameter).set_bounds (some (6, 8)) = ⟨5, some (6, 8)⟩ ∧
    Parameter.inBounds ⟨5, some (6, 8)⟩ = false := by decide

/-- C7 (amended): for a Model subclass declaring a parameter `x` whose
bounds admit the numeric value `v`, constructing with keyword `x = v` and
then reading attribute `x` returns the plain scalar `v` (not the Parameter
object) — provided `x` is not an alias key, `x` does not collide with the
ordinary attribute `name` written by the constructor, and `name` itself is
not intercepted by the parameter or alias tables.  (Without those provisos
the claim fails; see the counterexample.) -/
theorem constructReadRoundTrip (cls : ModelClass) (nm x : String) (v : Int)
    (p : Parameter) (fuel : Nat)
    (hnm1 : assocFind cls._mapping "name" = none)
    (hnm2 : assocFind cls._params "name" = none)
    (hxm : assocFind cls._mapping x = none)
    (hxn : x ≠ "name")
    (hxp : assocFind cls._params x = some p)
    (hb : p.check_bounds (.num v) = none) :
    (Model.init cls nm (fuel + 1) [(x, .num v)]).err = none ∧
    Model.readattr (Model.init cls nm (fuel + 1) [(x, .num v)]).cls
      (Model.init cls nm (fuel + 1) [(x, .num v)]).inst (fuel + 1) x =
      .ok (.num v) := by
  have hsv : p.set_value (.num v) = .ok { p with __value__ := v } := by
    unfold Parameter.set_value
    rw [hb]
  have hupd := assocFind_update_self cls._params x { p with __value__ := v } p hxp
  have hattrs : assocFind (assocSet ([] : List (String × PyVal)) "name"
      (.str nm)) x = none := by
    simp only [assocSet, assocFind, if_neg (Ne.symm hxn)]
  constructor
  · simp only [Model.init, Model.setattr, hnm1, hnm2, Model.initLoop,
      Model.getattr, hxm, hxp, hsv, Model.readattr, hattrs]
  · simp only [Model.init, Model.setattr, hnm1, hnm2, Model.initLoop,
      Model.getattr, hxm, hxp, hsv, Model.readattr, hattrs, hupd]

/-- Witness for C7 (amended): on the fixture declaring `x` with bounds
`(0, 10)`, constructing with `x = 5` succeeds and reading `x` back returns
the scalar `5`. -/
theorem constructReadRoundTripWitness :
    (Model.init boundedParamCls "M" 3 [("x", .num 5)]).err = none ∧
    Model.readattr (Model.init boundedParamCls "M" 3 [("x", .num 5)]).cls
      (Model.init boundedParamCls "M" 3 [("x", .num 5)]).inst 3 "x" =
      .ok (.num 5) :=
  constructReadRoundTrip boundedParamCls "M" "x" 5 ⟨0, some (0, 10)⟩ 2
    (by decide) (by decide) (by decide) (by decide) (by decide) (by decide)

/-- C7 counterexample: the claim quantifies over every declared parameter
name, but a subclass declaring a parameter literally called `name` (with
bounds admitting `5`) cannot even be constructed: `__init__`'s own
`self.name = self.__class__.__name__` assignment is intercepted by the
parameter table, and storing the class-name string into the bounded
parameter raises a `TypeError` before any keyword is processed.  So
constructing with keyword `name = 5` fails instead of succeeding and
returning `5`. -/
theorem constructReadRoundTripCex :
    (Model.init nameParamCls "M" 5 [("name", .num 5)]).err =
      some (.typeError "float argument required") ∧
    assocFind nameParamCls._params "name" = some ⟨0, some (0, 10)⟩ := by decide

/-- C8: for every attribute write, a raised error (bounds or type) leaves
the class and instance state untouched and invokes the cache hook zero
times, while a successful write that resolves (through the alias chain) to
a declared parameter stores the new value first and invokes the cache hook
exactly once, with the canonical (fully resolved) name of the just-updated
parameter; a successful write resolving to an ordinary attribute never
invokes the hook.  Construction-time assignments go through the same
`__setattr__` path (see `Model.init`). -/
theorem cacheHookOncePerAssignment (fuel : Nat) (cls : ModelClass)
    (inst : ModelInstance) (name : String) (v : PyVal) :
    ((Model.setattr cls inst fuel name v).err.isSome = true →
      (Model.setattr cls inst fuel name v).hooks = [] ∧
      (Model.setattr cls inst fuel name v).cls = cls ∧
      (Model.setattr cls inst fuel name v).inst = inst) ∧
    ((Model.setattr cls inst fuel name v).err = none →
      ∃ c, Model.resolve cls fuel name = some c ∧
        ((∃ p p', assocFind cls._params c = some p ∧ p.set_value v = .ok p' ∧
            (Model.setattr cls inst fuel name v).hooks = [c] ∧
            (Model.setattr cls inst fuel name v).cls =
              ⟨assocUpdate cls._params c p', cls._mapping⟩ ∧
            (Model.setattr cls inst fuel name v).inst = inst) ∨
         (assocFind cls._params c = none ∧
            (Model.setattr cls inst fuel name v).hooks = [] ∧
            (Model.setattr cls inst fuel name v).cls = cls ∧
            (Model.setattr cls inst fuel name v).inst =
              ⟨assocSet inst.attrs c v⟩))) := by
  induction fuel generalizing name with
  | zero =>
    refine ⟨fun _ => ⟨rfl, rfl, rfl⟩, fun h => absurd h (by simp [Model.setattr])⟩
  | succ f ih =>
    cases hm : assocFind cls._mapping name with
    | some tgt =>
      have h := ih tgt
      simp only [Model.setattr, Model.resolve, hm]
      exact h
    | none =>
      cases hp : assocFind cls._params name with
      | some p =>
        cases hsv : p.set_value v with
        | ok p' =>
          simp only [Model.setattr, Model.resolve, hm, hp, hsv]
          refine ⟨fun hcontra => absurd hcontra (by simp),
            fun _ => ⟨name, ?_, .inl ⟨p, p', ?_, ?_, ?_, ?_, ?_⟩⟩⟩ <;>
            first | exact hp | exact hsv | rfl | trivial
        | error e =>
          simp only [Model.setattr, Model.resolve, hm, hp, hsv]
          refine ⟨fun _ => ⟨?_, ?_, ?_⟩, fun h => absurd h (by simp)⟩ <;>
            first | rfl | trivial
      | none =>
        simp only [Model.setattr, Model.resolve, hm, hp]
        refine ⟨fun hcontra => absurd hcontra (by simp),
          fun _ => ⟨name, ?_, .inr ⟨?_, ?_, ?_, ?_⟩⟩⟩ <;>
          first | exact hp | rfl | trivial

/-- Witness for C8: a successful in-bounds write to `x` invokes the hook
exactly once with name `x`; a failed out-of-bounds write invokes it zero
times and leaves the class state unchanged. -/
theorem cacheHookOncePerAssignmentWitness :
    (Model.setattr oneParamCls ⟨[]⟩ 3 "x" (.num 5)).hooks = ["x"] ∧
    (Model.setattr boundedParamCls ⟨[]⟩ 3 "x" (.num 99)).hooks = [] ∧
    (Model.setattr boundedParamCls ⟨[]⟩ 3 "x" (.num 99)).cls = boundedParamCls := by
  have hfail := (cacheHookOncePerAssignment 3 boundedParamCls ⟨[]⟩ "x" (.num 99)).1
    (by decide)
  exact ⟨by decide, hfail.1, hfail.2.1⟩

/-- C9: every embedded numeric operation of `Parameter` — arithmetic,
comparison, bitwise, unary, and the reflected forms — returns the native
operation applied to the wrapped value and the operand (or the operand and
the wrapped value for reflected forms) as a plain number or boolean, never
a `Parameter`, and takes the parameter purely as input (no operation
returns a modified parameter, mirroring the assignment-free method bodies);
concretely, for a Parameter wrapping `10`: `parameter + 5 == 15`,
`5 + parameter == 15`, and `parameter < 20` is true. -/
theorem numericOpsForward (p : Parameter) (x : Int) :
    p.add x = p.value + x ∧
    p.radd x = x + p.value ∧
    p.sub x = p.value - x ∧
    p.rsub x = x - p.value ∧
    p.mul x = p.value * x ∧
    p.rmul x = x * p.value ∧
    p.floordiv x = Int.fdiv p.value x ∧
    p.mod x = Int.fmod p.value x ∧
    p.rfloordiv x = Int.fdiv x p.value ∧
    p.rmod x = Int.fmod x p.value ∧
    p.neg = -p.value ∧
    p.pos = p.value ∧
    p.absOp = |p.value| ∧
    p.landOp x = Int.land p.value x ∧
    p.lorOp x = Int.lor p.value x ∧
    p.xorOp x = Int.xor p.value x ∧
    p.rlandOp x = Int.land x p.value ∧
    p.ltOp x = decide (p.value < x) ∧
    p.leOp x = decide (p.value ≤ x) ∧
    p.gtOp x = decide (p.value > x) ∧
    p.geOp x = decide (p.value ≥ x) ∧
    p.eqOp x = decide (p.value = x) ∧
    p.neOp x = decide (p.value ≠ x) ∧
    (⟨10, none⟩ : Parameter).add 5 = 15 ∧
    (⟨10, none⟩ : Parameter).radd 5 = 15 ∧
    (⟨10, none⟩ : Parameter).ltOp 20 = true :=
  ⟨rfl, rfl, rfl, rfl, rfl, rfl, rfl, rfl, rfl, rfl, rfl, rfl, rfl, rfl, rfl,
    rfl, rfl, rfl, rfl, rfl, rfl, rfl, rfl, by decide, by decide, by decide⟩

/-- C10: `_params` is class-level state shared by every instance of the
subclass.  A successful parameter assignment performed through one instance
updates the shared class state, so a subsequent read of the same parameter
through a different instance (one whose own attribute dictionary does not
shadow the name) returns the newly assigned value. -/
theorem sharedClassState (cls : ModelClass) (inst1 inst2 : ModelInstance)
    (fuel : Nat) (x : String) (v : Int) (p : Parameter)
    (hm : assocFind cls._mapping x = none)
    (hp : assocFind cls._params x = some p)
    (hok : p.check_bounds (.num v) = none)
    (ha : assocFind inst2.attrs x = none) :
    (Model.setattr cls inst1 (fuel + 1) x (.num v)).err = none ∧
    Model.readattr (Model.setattr cls inst1 (fuel + 1) x (.num v)).cls inst2
      (fuel + 1) x = .ok (.num v) := by
  have hsv : p.set_value (.num v) = .ok { p with __value__ := v } := by
    unfold Parameter.set_value
    rw [hok]
  have hupd := assocFind_update_self cls._params x { p with __value__ := v } p hp
  constructor
  · simp only [Model.setattr, hm, hp, hsv]
  · simp only [Model.setattr, Model.readattr, Model.getattr, hm, hp, hsv, ha, hupd]

/-- Witness for C10: writing `x = 5` through one instance makes a read of
`x` through a second, distinct instance (with its own `name` attribute)
return `5`. -/
theorem sharedClassStateWitness :
    (Model.setattr oneParamCls ⟨[("name", .str "M1")]⟩ 3 "x" (.num 5)).err = none ∧
    Model.readattr (Model.setattr oneParamCls ⟨[("name", .str "M1")]⟩ 3 "x"
      (.num 5)).cls ⟨[("name", .str "M2")]⟩ 3 "x" = .ok (.num 5) :=
  sharedClassState oneParamCls ⟨[("name", .str "M1")]⟩ ⟨[("name", .str "M2")]⟩ 2
    "x" 5 ⟨0, none⟩ (by decide) (by decide) (by decide) (by decide)

end UgaliModel
